import Mathlib

/-!
Shallow embedding of the `monitor_status_lite` plugin
(`plugin.py` and `image_generator.py`) and verification of its
specification claims.

Python floats are modelled as rationals (`ℚ`), Python ints as `Int`/`Nat`,
and the asynchronous messaging boundary as an explicit trace of sent
messages together with the handler's result triple.
-/

namespace MonitorStatus

/-! ### `format_duration` (plugin.py lines 40-60) -/

/-- Embedding of `format_duration`: negative input yields the error string
"N/A"; otherwise the seconds value is split into days/hours/minutes/seconds,
each non-zero component (and the seconds component when all others are zero)
is rendered with its unit suffix, and the first three components are joined
without separators. -/
def formatDuration (seconds : Int) : String :=
  if seconds < 0 then "N/A"
  else
    let s := seconds.toNat
    let days := s / 86400
    let hours := (s % 86400) / 3600
    let minutes := (s % 3600) / 60
    let secs := s % 60
    let parts : List String :=
      (if 0 < days then [toString days ++ "天"] else []) ++
      (if 0 < hours then [toString hours ++ "小时"] else []) ++
      (if 0 < minutes then [toString minutes ++ "分"] else [])
    let parts :=
      if 0 < secs ∨ parts = [] then parts ++ [toString secs ++ "秒"] else parts
    String.join (parts.take 3)

/-- The four duration units of a seconds value, most significant first,
paired with their localized suffixes (spec-side description). -/
def durationUnits (s : Nat) : List (Nat × String) :=
  [(s / 86400, "天"), ((s % 86400) / 3600, "小时"), ((s % 3600) / 60, "分"), (s % 60, "秒")]

/-- Spec-side reformulation of duration formatting, following the spec's
words: the most significant non-zero units, at most three of them, each with
its suffix, concatenated without separators; "0" + seconds unit for zero;
an error string for negative input. -/
def formatDurationSpec (seconds : Int) : String :=
  if seconds < 0 then "N/A"
  else if seconds = 0 then "0秒"
  else
    String.join
      ((((durationUnits seconds.toNat).filter (fun p => decide (0 < p.1))).map
        (fun p => toString p.1 ++ p.2)).take 3)

/-! ### `_get_usage_color` (image_generator.py lines 242-249) and colors -/

def success_color : Nat × Nat × Nat := (72, 199, 142)

def warning_color : Nat × Nat × Nat := (255, 193, 69)

def danger_color : Nat × Nat × Nat := (255, 99, 99)

/-- Embedding of `MonitorImageGenerator._get_usage_color`. -/
def getUsageColor (percent : ℚ) : Nat × Nat × Nat :=
  if percent < 60 then success_color
  else if percent < 85 then warning_color
  else danger_color

/-! ### Memory history buffer (plugin.py line 19, `deque(maxlen=60)`) -/

/-- Capacity of the global `MEMORY_HISTORY` deque. -/
def memoryHistoryMaxlen : Nat := 60

/-- Embedding of `deque(maxlen=60).append`: when the buffer is below
capacity the value is appended; at (or beyond) capacity the oldest entries
are evicted from the left so that the result again has exactly the capacity. -/
def dequeAppend (buf : List ℚ) (x : ℚ) : List ℚ :=
  if buf.length < memoryHistoryMaxlen then buf ++ [x]
  else (buf.drop (buf.length + 1 - memoryHistoryMaxlen)) ++ [x]

/-! ### Trend analysis (`MemoryAnalysisCommand.execute`, plugin.py lines 252-288) -/

/-- Embedding of the trend classification in `MemoryAnalysisCommand.execute`:
with at least 5 samples, the mean of the last five samples is compared with
the mean of the first five; otherwise the data-collecting marker is produced. -/
def memTrend (history : List ℚ) : String :=
  if 5 ≤ history.length then
    let recentAvg :=
      (history.drop (history.length - 5)).sum / ((history.drop (history.length - 5)).length : ℚ)
    let oldAvg := (history.take 5).sum / ((history.take 5).length : ℚ)
    let diff := recentAvg - oldAvg
    if 10 < diff then "↗️ 明显上升 (可能存在泄漏)"
    else if 2 < diff then "↗️ 缓慢上升"
    else if diff < -10 then "↘️ 明显下降"
    else if diff < -2 then "↘️ 缓慢下降"
    else "➡️ 相对平稳"
  else "🔄 数据收集中..."

/-- The numeric part of the memory analysis report. -/
structure MemReport where
  current : ℚ
  avg : ℚ
  maxMem : ℚ
  minMem : ℚ
  trend : String
deriving DecidableEq

/-- Embedding of the statistics computed by `MemoryAnalysisCommand.execute`
on a non-empty buffer `x :: xs`: current value (`MEMORY_HISTORY[-1]`),
arithmetic mean, `max` and `min` over the whole buffer, and the trend string. -/
def memReport (x : ℚ) (xs : List ℚ) : MemReport :=
  { current := (x :: xs).getLast (List.cons_ne_nil x xs)
    avg := (x :: xs).sum / (((x :: xs).length : ℚ))
    maxMem := xs.foldl max x
    minMem := xs.foldl min x
    trend := memTrend (x :: xs) }

/-! ### Message traces and handler outcomes -/

/-- A message handed to the host messaging API. -/
inductive Sent where
  | text (s : String)
  | image (b64 : String)
deriving DecidableEq

/-- Outcome of one command handler invocation: the trace of messages sent
through the host API, and the returned result triple
(success flag, optional status message, notable flag). -/
structure ExecOutcome where
  sent : List Sent
  success : Bool
  message : Option String
  notable : Bool
deriving DecidableEq

/-- Model of the Python format spec `.1f` on our rational model of floats:
fixed-point rendering with one decimal digit, rounding half to even. -/
def fmt1 (q : ℚ) : String :=
  let scaled := q * 10
  let f : Int := ⌊scaled⌋
  let n : Int :=
    if 1 / 2 < scaled - f then f + 1
    else if scaled - f < 1 / 2 then f
    else if f % 2 = 0 then f else f + 1
  let sign := if n < 0 then "-" else ""
  let m := n.natAbs
  sign ++ toString (m / 10) ++ "." ++ toString (m % 10)

/-- The memory analysis report text (the stripped f-string of
`MemoryAnalysisCommand.execute`). -/
def memMsg (n : Nat) (r : MemReport) : String :=
  "🧠 **内存分析报告** (近 " ++ toString n ++ " 分钟)" ++
  "\n------------------" ++
  "\n当前: " ++ fmt1 r.current ++ " MB" ++
  "\n平均: " ++ fmt1 r.avg ++ " MB" ++
  "\n峰值: " ++ fmt1 r.maxMem ++ " MB" ++
  "\n趋势: " ++ r.trend ++
  "\n------------------" ++
  "\n* 数据每分钟自动采集一次"

/-- Embedding of `MemoryAnalysisCommand.execute`. `history0` is the state of
`MEMORY_HISTORY` at invocation time; `lazySample` is the result of the single
lazy sampling attempt performed when the buffer is empty (`none` models the
swallowed sampling exception). The handler returns the trace of sent
messages and the result triple. -/
def memExecute (history0 : List ℚ) (lazySample : Option ℚ) : ExecOutcome :=
  let history :=
    if history0.isEmpty then
      match lazySample with
      | some m => dequeAppend history0 m
      | none => history0
    else history0
  match history with
  | [] => { sent := [], success := true, message := some "❌ 暂无内存数据", notable := false }
  | x :: xs =>
    let r := memReport x xs
    { sent := [Sent.text (memMsg (x :: xs).length r)]
      success := true
      message := some "内存分析已发送"
      notable := true }

/-! ### Disk collection (`get_disk_info`, plugin.py lines 76-96) -/

/-- A mounted partition as reported by `psutil.disk_partitions()`:
the fields read by `get_disk_info`. -/
structure DiskPart where
  mountpoint : String
  fstype : String
  opts : String

/-- The usage record returned by `psutil.disk_usage(mountpoint)`. -/
structure DiskUsage where
  total : ℚ
  used : ℚ
  free : ℚ
  percent : ℚ

/-- One entry of the list built by `get_disk_info`. -/
structure DiskEntry where
  mountpoint : String
  percent : ℚ
  total_gb : ℚ
  used_gb : ℚ
  free_gb : ℚ
deriving DecidableEq

/-- Python's substring test `pat in s`: `s.splitOn pat` has at least two
pieces exactly when the (non-empty) pattern occurs in `s`. -/
def containsSubstr (s pat : String) : Bool :=
  2 ≤ (s.splitOn pat).length

/-- The `continue` condition of `get_disk_info`:
`'cdrom' in part.opts.lower() or part.fstype == ''`. -/
def skipPart (p : DiskPart) : Bool :=
  containsSubstr p.opts.toLower "cdrom" || p.fstype == ""

/-- The entry appended for a partition whose usage query succeeded. -/
def mkDiskEntry (p : DiskPart) (u : DiskUsage) : DiskEntry :=
  { mountpoint := p.mountpoint
    percent := u.percent
    total_gb := u.total / 1024 ^ 3
    used_gb := u.used / 1024 ^ 3
    free_gb := u.free / 1024 ^ 3 }

/-- Embedding of `get_disk_info` as the loop over the partition list.
`usageOf` models `psutil.disk_usage`; `none` models a raised exception for
that mountpoint, swallowed by the per-partition `except: pass`. -/
def getDiskInfo (parts : List DiskPart) (usageOf : String → Option DiskUsage) :
    List DiskEntry :=
  match parts with
  | [] => []
  | p :: rest =>
    if skipPart p then getDiskInfo rest usageOf
    else
      match usageOf p.mountpoint with
      | none => getDiskInfo rest usageOf
      | some u => mkDiskEntry p u :: getDiskInfo rest usageOf

/-- The disks actually rendered by `_draw_disk_info`
(image_generator.py line 182: `disks[:5]`). -/
def drawnDisks (disks : List DiskEntry) : List DiskEntry :=
  disks.take 5

/-! ### Status command (`StatusCommand.execute`, plugin.py lines 126-192) -/

/-- The fields of the collected snapshot `data` that the text report reads.
Numeric metrics are rationals; preformatted fields are strings. -/
structure StatusData where
  bot_qq : String
  bot_uptime : String
  bot_memory_mb : ℚ
  bot_threads : Nat
  os_full_version : String
  python_version : String
  cpu_percent : ℚ
  ram_percent : ℚ
  ram_used_gb : ℚ
  ram_total_gb : ℚ
  enabled_plugin_count : Nat
  plugin_count : Nat

/-- Decimal digits of the fractional part `r / d` by long division
(fuel-bounded; models the digits Python prints for a float with a finite
decimal expansion). -/
def fracDigits : Nat → Nat → Nat → String
  | 0, _, _ => ""
  | _, 0, _ => ""
  | fuel + 1, r, d =>
    toString (r * 10 / d) ++ fracDigits fuel (r * 10 % d) d

/-- Model of Python's `str()` on a float value, on our rational model:
integral part, a dot, then the fractional digits ("0" when the value is
integral, matching `str(12.0) = "12.0"`). -/
def pyFloatStr (q : ℚ) : String :=
  let sign := if q < 0 then "-" else ""
  let a := |q|
  let ip := a.num.toNat / a.den
  let r := a.num.toNat % a.den
  if r = 0 then sign ++ toString ip ++ ".0"
  else sign ++ toString ip ++ "." ++ fracDigits 17 r a.den

/-- The stripped plain-text status report (the f-string of
`StatusCommand.execute`, lines 176-190). -/
def statusText (d : StatusData) : String :=
  "📊 **Bot 状态报告**" ++
  "\n------------------" ++
  "\n🤖 Bot QQ: " ++ d.bot_qq ++
  "\n⏱️ 运行时间: " ++ d.bot_uptime ++
  "\n🧠 内存占用: " ++ fmt1 d.bot_memory_mb ++ " MB" ++
  "\n🧵 线程数量: " ++ toString d.bot_threads ++
  "\n------------------" ++
  "\n💻 系统: " ++ d.os_full_version ++
  "\n🐍 Python: " ++ d.python_version ++
  "\n⚙️ CPU: " ++ pyFloatStr d.cpu_percent ++ "%" ++
  "\n💾 RAM: " ++ pyFloatStr d.ram_percent ++ "% (" ++
    fmt1 d.ram_used_gb ++ "/" ++ fmt1 d.ram_total_gb ++ " GB)" ++
  "\n------------------" ++
  "\n📦 插件: " ++ toString d.enabled_plugin_count ++ "/" ++
    toString d.plugin_count ++ " 已启用"

/-- Result of the attempt to generate and send the status image:
either the base64-encoded image bytes, or the message of the raised
exception. -/
inductive GenOutcome where
  | ok (b64 : String)
  | err (e : String)

/-- Embedding of the output phase of `StatusCommand.execute`: when the image
generator is available it is tried first; a drawing exception produces a
failure notice followed by the plain-text report; when the generator is
unavailable the text report is sent directly. -/
def statusExecute (d : StatusData) (generatorAvailable : Bool)
    (gen : GenOutcome) : ExecOutcome :=
  if generatorAvailable then
    match gen with
    | GenOutcome.ok b64 =>
      { sent := [Sent.image b64], success := true
        message := some "状态图片已发送", notable := true }
    | GenOutcome.err e =>
      { sent := [Sent.text ("❌ 图片生成失败: " ++ e ++ "\n正在发送文字版..."),
                 Sent.text (statusText d)]
        success := true, message := some "状态信息已发送", notable := true }
  else
    { sent := [Sent.text (statusText d)], success := true
      message := some "状态信息已发送", notable := true }

/-! ### Image geometry (`MonitorImageGenerator.generate`, image_generator.py lines 43-48) -/

/-- The geometric quantities computed at the start of `generate`. -/
structure ImageGeometry where
  width : Nat
  height : Int
  diskCardHeight : Int
  drawnRows : Nat
deriving DecidableEq

/-- Embedding of the layout computation of `generate`: width is the fixed
`self.width = 1100`; `disk_card_height = max(35 * min(disk_count, 5) + 55, 90)`;
`self.height = 920 + max(0, (disk_count - 3) * 35)`; and `_draw_disk_info`
draws one row per element of `disks[:5]`. -/
def generateGeometry (disks : List DiskEntry) : ImageGeometry :=
  let diskCount := disks.length
  { width := 1100
    height := 920 + max 0 (((diskCount : Int) - 3) * 35)
    diskCardHeight := max (35 * min (diskCount : Int) 5 + 55) 90
    drawnRows := (drawnDisks disks).length }

/-- `mid` occurs as a contiguous substring of `s`. -/
def StrContains (s mid : String) : Prop :=
  ∃ pre post, s = pre ++ mid ++ post

/-- Spec-side notion: the mean of the most recent 5 samples. -/
def recentMean5 (l : List ℚ) : ℚ :=
  (l.drop (l.length - 5)).sum / 5

/-- Spec-side notion: the mean of the earliest 5 samples. -/
def oldMean5 (l : List ℚ) : ℚ :=
  (l.take 5).sum / 5

/-! ## Helper lemmas -/

theorem strContains_self (s : String) : StrContains s s :=
  ⟨"", "", by simp⟩

theorem strContains_append_left (t s mid : String) (h : StrContains s mid) :
    StrContains (t ++ s) mid := by
  obtain ⟨pre, post, rfl⟩ := h
  exact ⟨t ++ pre, post, by simp [String.append_assoc]⟩

theorem strContains_append_right (s t mid : String) (h : StrContains s mid) :
    StrContains (s ++ t) mid := by
  obtain ⟨pre, post, rfl⟩ := h
  exact ⟨pre, post ++ t, by simp [String.append_assoc]⟩

/-- Over a buffer of length at least 5, the trend classification is the
threshold table applied to the difference of the two 5-sample means. -/
theorem memTrend_classify (l : List ℚ) (h : 5 ≤ l.length) :
    memTrend l =
      if 10 < recentMean5 l - oldMean5 l then "↗️ 明显上升 (可能存在泄漏)"
      else if 2 < recentMean5 l - oldMean5 l then "↗️ 缓慢上升"
      else if recentMean5 l - oldMean5 l < -10 then "↘️ 明显下降"
      else if recentMean5 l - oldMean5 l < -2 then "↘️ 缓慢下降"
      else "➡️ 相对平稳" := by
  have hdrop : (l.drop (l.length - 5)).length = 5 := by
    rw [List.length_drop]; omega
  have htake : (l.take 5).length = 5 := by
    rw [List.length_take]; omega
  unfold memTrend recentMean5 oldMean5
  rw [if_pos h, hdrop, htake]
  norm_num

/-- `foldl max` over a list returns an element of the list. -/
theorem foldl_max_mem (x : ℚ) (xs : List ℚ) : xs.foldl max x ∈ x :: xs := by
  induction xs generalizing x with
  | nil => simp
  | cons y ys ih =>
    simp only [List.foldl_cons]
    rcases List.mem_cons.mp (ih (max x y)) with h1 | h2
    · rw [h1]
      rcases max_choice x y with hx | hy
      · rw [hx]; exact List.mem_cons_self _ _
      · rw [hy]; exact List.mem_cons_of_mem _ (List.mem_cons_self _ _)
    · exact List.mem_cons_of_mem _ (List.mem_cons_of_mem _ h2)

/-- `foldl max` over a list bounds every element of the list from above. -/
theorem le_foldl_max (x : ℚ) (xs : List ℚ) :
    ∀ a ∈ x :: xs, a ≤ xs.foldl max x := by
  induction xs generalizing x with
  | nil => intro a ha; rw [List.mem_singleton] at ha; simp [ha]
  | cons y ys ih =>
    intro a ha
    simp only [List.foldl_cons]
    rcases List.mem_cons.mp ha with h1 | h2
    · rw [h1]
      exact le_trans (le_max_left x y) (ih (max x y) _ (List.mem_cons_self _ _))
    · rcases List.mem_cons.mp h2 with h3 | h4
      · rw [h3]
        exact le_trans (le_max_right x y) (ih (max x y) _ (List.mem_cons_self _ _))
      · exact ih (max x y) a (List.mem_cons_of_mem _ h4)

/-- `foldl min` over a list returns an element of the list. -/
theorem foldl_min_mem (x : ℚ) (xs : List ℚ) : xs.foldl min x ∈ x :: xs := by
  induction xs generalizing x with
  | nil => simp
  | cons y ys ih =>
    simp only [List.foldl_cons]
    rcases List.mem_cons.mp (ih (min x y)) with h1 | h2
    · rw [h1]
      rcases min_choice x y with hx | hy
      · rw [hx]; exact List.mem_cons_self _ _
      · rw [hy]; exact List.mem_cons_of_mem _ (List.mem_cons_self _ _)
    · exact List.mem_cons_of_mem _ (List.mem_cons_of_mem _ h2)

/-- `foldl min` over a list bounds every element of the list from below. -/
theorem foldl_min_le (x : ℚ) (xs : List ℚ) :
    ∀ a ∈ x :: xs, xs.foldl min x ≤ a := by
  induction xs generalizing x with
  | nil => intro a ha; rw [List.mem_singleton] at ha; simp [ha]
  | cons y ys ih =>
    intro a ha
    simp only [List.foldl_cons]
    rcases List.mem_cons.mp ha with h1 | h2
    · rw [h1]
      exact le_trans (ih (min x y) _ (List.mem_cons_self _ _)) (min_le_left x y)
    · rcases List.mem_cons.mp h2 with h3 | h4
      · rw [h3]
        exact le_trans (ih (min x y) _ (List.mem_cons_self _ _)) (min_le_right x y)
      · exact ih (min x y) a (List.mem_cons_of_mem _ h4)

/-- One bounded append keeps the length at or below the capacity. -/
theorem dequeAppend_length (buf : List ℚ) (x : ℚ) (h : buf.length ≤ 60) :
    (dequeAppend buf x).length ≤ 60 := by
  unfold dequeAppend memoryHistoryMaxlen
  split
  · simp only [List.length_append, List.length_singleton]
    omega
  · simp only [List.length_append, List.length_drop, List.length_singleton]
    omega

/-! ## Claim theorems -/

/-- C3: for every percentage p in [0,100], the usage color-threshold function
returns the success color exactly when p < 60, the warning color exactly when
60 <= p < 85, and the danger color exactly when p >= 85; the three cases
partition [0,100] with no gap or overlap at p = 60 and p = 85. -/
theorem c3_usage_color_thresholds (p : ℚ) (h0 : 0 ≤ p) (h1 : p ≤ 100) :
    (getUsageColor p = success_color ↔ p < 60) ∧
    (getUsageColor p = warning_color ↔ 60 ≤ p ∧ p < 85) ∧
    (getUsageColor p = danger_color ↔ 85 ≤ p) := by
  have hsw : success_color ≠ warning_color := by decide
  have hsd : success_color ≠ danger_color := by decide
  have hwd : warning_color ≠ danger_color := by decide
  unfold getUsageColor
  by_cases h60 : p < 60
  · rw [if_pos h60]
    refine ⟨⟨fun _ => h60, fun _ => rfl⟩, ?_, ?_⟩
    · exact ⟨fun hc => absurd hc hsw, fun hh => absurd h60 (not_lt.mpr hh.1)⟩
    · exact ⟨fun hc => absurd hc hsd, fun hh => absurd h60 (not_lt.mpr (by linarith))⟩
  · rw [if_neg h60]
    by_cases h85 : p < 85
    · rw [if_pos h85]
      refine ⟨?_, ⟨fun _ => ⟨not_lt.mp h60, h85⟩, fun _ => rfl⟩, ?_⟩
      · exact ⟨fun hc => absurd hc.symm hsw, fun hp => absurd hp h60⟩
      · exact ⟨fun hc => absurd hc hwd, fun hh => absurd h85 (not_lt.mpr hh)⟩
    · rw [if_neg h85]
      refine ⟨?_, ?_, ⟨fun _ => not_lt.mp h85, fun _ => rfl⟩⟩
      · exact ⟨fun hc => absurd hc.symm hsd, fun hp => absurd hp h60⟩
      · exact ⟨fun hc => absurd hc.symm hwd, fun hh => absurd hh.2 h85⟩

/-- Witness for C3 at p = 70. -/
theorem c3_usage_color_thresholds_witness :
    (0:ℚ) ≤ 70 ∧ (70:ℚ) ≤ 100 ∧
    (getUsageColor 70 = warning_color ↔ (60:ℚ) ≤ 70 ∧ (70:ℚ) < 85) := by
  exact ⟨by norm_num, by norm_num,
    (c3_usage_color_thresholds 70 (by norm_num) (by norm_num)).2.1⟩

/-- C4: for every sequence of appends to the memory history buffer, the
buffer length never exceeds 60; an append at length 60 evicts exactly the
oldest element (strict FIFO), and the remaining elements keep their
oldest-to-newest order. -/
theorem c4_buffer_capacity_fifo (init : List ℚ) (xs : List ℚ)
    (hinit : init.length ≤ 60) :
    (xs.foldl dequeAppend init).length ≤ 60 ∧
    (∀ (buf : List ℚ) (y : ℚ), buf.length = 60 →
      dequeAppend buf y = buf.drop 1 ++ [y]) := by
  constructor
  · induction xs generalizing init with
    | nil => exact hinit
    | cons z zs ih =>
      rw [List.foldl_cons]
      exact ih (dequeAppend init z) (dequeAppend_length init z hinit)
  · intro buf y hlen
    unfold dequeAppend memoryHistoryMaxlen
    rw [if_neg (by omega), hlen]

/-- Witness for C4: 61 appends starting from the empty buffer, and one
append to a full 60-element buffer. -/
theorem c4_buffer_capacity_fifo_witness :
    ((List.replicate 61 (0:ℚ)).foldl dequeAppend []).length ≤ 60 ∧
    dequeAppend (List.replicate 60 (0:ℚ)) 1 =
      (List.replicate 60 (0:ℚ)).drop 1 ++ [1] := by
  have h := c4_buffer_capacity_fifo [] (List.replicate 61 (0:ℚ)) (by simp)
  exact ⟨h.1, h.2 _ _ (by simp)⟩

/-- C9: when the mem command finds the buffer empty and its one lazy sampling
attempt also leaves it empty, it returns the triple (true, no-data message,
false) and sends nothing through the messaging API. -/
theorem c9_mem_no_data :
    memExecute [] none =
      { sent := [], success := true,
        message := some "❌ 暂无内存数据", notable := false } := rfl

/-- C10: the total image height is 920 + max(0, (n - 3) * 35) over the
untruncated disk count n, the Disk Space card height is
max(35 * min(n, 5) + 55, 90), the width is fixed at 1100, and for n > 5 the
height keeps growing by 35 per disk although only 5 disk rows are drawn. -/
theorem c10_image_geometry (disks bigger : List DiskEntry) :
    (generateGeometry disks).width = 1100 ∧
    (generateGeometry disks).height =
      920 + max 0 (((disks.length : Int) - 3) * 35) ∧
    (generateGeometry disks).diskCardHeight =
      max (35 * min (disks.length : Int) 5 + 55) 90 ∧
    (5 < disks.length → bigger.length = disks.length + 1 →
      (generateGeometry bigger).height = (generateGeometry disks).height + 35 ∧
      (generateGeometry disks).drawnRows = 5 ∧
      (generateGeometry bigger).drawnRows = 5) := by
  refine ⟨rfl, rfl, rfl, fun h5 hgrow => ⟨?_, ?_, ?_⟩⟩
  · show 920 + max 0 (((bigger.length : Int) - 3) * 35) =
      920 + max 0 (((disks.length : Int) - 3) * 35) + 35
    rw [hgrow]
    rw [max_eq_right (by omega), max_eq_right (by omega)]
    push_cast
    ring
  · show (drawnDisks disks).length = 5
    unfold drawnDisks
    rw [List.length_take]
    omega
  · show (drawnDisks bigger).length = 5
    unfold drawnDisks
    rw [List.length_take]
    omega

/-- Witness for C10 with 6 and 7 identical disk entries. -/
theorem c10_image_geometry_witness :
    5 < (List.replicate 6 (⟨"/", 50, 100, 50, 50⟩ : DiskEntry)).length ∧
    (List.replicate 7 (⟨"/", 50, 100, 50, 50⟩ : DiskEntry)).length =
      (List.replicate 6 (⟨"/", 50, 100, 50, 50⟩ : DiskEntry)).length + 1 ∧
    (generateGeometry (List.replicate 7 (⟨"/", 50, 100, 50, 50⟩ : DiskEntry))).height =
      (generateGeometry (List.replicate 6 (⟨"/", 50, 100, 50, 50⟩ : DiskEntry))).height + 35 := by
  have h := (c10_image_geometry
      (List.replicate 6 (⟨"/", 50, 100, 50, 50⟩ : DiskEntry))
      (List.replicate 7 (⟨"/", 50, 100, 50, 50⟩ : DiskEntry))).2.2.2
      (by simp) (by simp)
  exact ⟨by simp, by simp, h.1⟩

/-- C1: for a buffer of at least 5 samples the trend classification is
determined by diff = (mean of last 5) - (mean of first 5) through the
threshold table; below 5 samples it is the collecting marker; and the
report's current value is the last buffer entry while mean/max/min are the
arithmetic mean, maximum and minimum over the whole buffer. -/
theorem c1_trend_and_report (x : ℚ) (xs : List ℚ) :
    (5 ≤ (x :: xs).length →
      memTrend (x :: xs) =
        if 10 < recentMean5 (x :: xs) - oldMean5 (x :: xs) then
          "↗️ 明显上升 (可能存在泄漏)"
        else if 2 < recentMean5 (x :: xs) - oldMean5 (x :: xs) then "↗️ 缓慢上升"
        else if recentMean5 (x :: xs) - oldMean5 (x :: xs) < -10 then "↘️ 明显下降"
        else if recentMean5 (x :: xs) - oldMean5 (x :: xs) < -2 then "↘️ 缓慢下降"
        else "➡️ 相对平稳") ∧
    ((x :: xs).length < 5 → memTrend (x :: xs) = "🔄 数据收集中...") ∧
    (memReport x xs).current = (x :: xs).getLast (List.cons_ne_nil x xs) ∧
    (memReport x xs).avg = (x :: xs).sum / ((x :: xs).length : ℚ) ∧
    (memReport x xs).maxMem ∈ x :: xs ∧
    (∀ a ∈ x :: xs, a ≤ (memReport x xs).maxMem) ∧
    (memReport x xs).minMem ∈ x :: xs ∧
    (∀ a ∈ x :: xs, (memReport x xs).minMem ≤ a) := by
  refine ⟨memTrend_classify (x :: xs), fun h => ?_, rfl, rfl,
    foldl_max_mem x xs, le_foldl_max x xs, foldl_min_mem x xs, foldl_min_le x xs⟩
  unfold memTrend
  rw [if_neg (by omega)]

/-- Witness for C1: a 6-sample constant buffer is classified stable, and a
2-sample buffer is still collecting. -/
theorem c1_trend_and_report_witness :
    5 ≤ ([(10:ℚ), 10, 10, 10, 10, 10] : List ℚ).length ∧
    memTrend [(10:ℚ), 10, 10, 10, 10, 10] = "➡️ 相对平稳" ∧
    ([(11:ℚ), 12] : List ℚ).length < 5 ∧
    memTrend [(11:ℚ), 12] = "🔄 数据收集中..." := by
  have h1 := (c1_trend_and_report (10:ℚ) [10, 10, 10, 10, 10]).1 (by decide)
  have h2 := (c1_trend_and_report (11:ℚ) [12]).2.1 (by decide)
  refine ⟨by decide, ?_, by decide, h2⟩
  rw [h1]
  norm_num [recentMean5, oldMean5]

/-- C5 counterexample: a 10-sample buffer whose most-recent-5 mean is 150
and earliest-5 mean is 135 has diff = 15 > 10 and is classified
"明显上升 (可能存在泄漏)" (marked increase), not "缓慢上升" (slow
increase) as the claim states. -/
theorem c5_counterexample :
    10 ≤ ([135, 135, 135, 135, 135, 150, 150, 150, 150, 150] : List ℚ).length ∧
    recentMean5 [135, 135, 135, 135, 135, 150, 150, 150, 150, 150] = 150 ∧
    oldMean5 [135, 135, 135, 135, 135, 150, 150, 150, 150, 150] = 135 ∧
    memTrend [135, 135, 135, 135, 135, 150, 150, 150, 150, 150] ≠ "↗️ 缓慢上升" ∧
    memTrend [135, 135, 135, 135, 135, 150, 150, 150, 150, 150] =
      "↗️ 明显上升 (可能存在泄漏)" := by
  have hmt : memTrend [135, 135, 135, 135, 135, 150, 150, 150, 150, 150] =
      "↗️ 明显上升 (可能存在泄漏)" := by
    rw [memTrend_classify _ (by decide)]
    norm_num [recentMean5, oldMean5]
  refine ⟨by decide, ?_, ?_, ?_, hmt⟩
  · norm_num [recentMean5]
  · norm_num [oldMean5]
  · rw [hmt]
    decide

/-- C5 (amended): for a buffer of at least 10 samples whose most-recent-5
mean is 150 MB and earliest-5 mean is 135 MB, the classification is
"marked increase (possible leak)"; for recent mean 160 MB and old mean
140 MB it is likewise "marked increase (possible leak)". -/
theorem c5_amended_marked_increase (buf buf2 : List ℚ)
    (h : 10 ≤ buf.length) (hr : recentMean5 buf = 150) (ho : oldMean5 buf = 135)
    (h2 : 10 ≤ buf2.length) (hr2 : recentMean5 buf2 = 160)
    (ho2 : oldMean5 buf2 = 140) :
    memTrend buf = "↗️ 明显上升 (可能存在泄漏)" ∧
    memTrend buf2 = "↗️ 明显上升 (可能存在泄漏)" := by
  constructor
  · rw [memTrend_classify buf (by omega), hr, ho]
    norm_num
  · rw [memTrend_classify buf2 (by omega), hr2, ho2]
    norm_num

/-- Witness for C5 (amended) on two concrete 10-sample buffers. -/
theorem c5_amended_marked_increase_witness :
    10 ≤ ([140, 140, 140, 140, 140, 160, 160, 160, 160, 160] : List ℚ).length ∧
    recentMean5 [140, 140, 140, 140, 140, 160, 160, 160, 160, 160] = 160 ∧
    oldMean5 [140, 140, 140, 140, 140, 160, 160, 160, 160, 160] = 140 ∧
    memTrend [135, 135, 135, 135, 135, 150, 150, 150, 150, 150] =
      "↗️ 明显上升 (可能存在泄漏)" ∧
    memTrend [140, 140, 140, 140, 140, 160, 160, 160, 160, 160] =
      "↗️ 明显上升 (可能存在泄漏)" := by
  have h := c5_amended_marked_increase
      [135, 135, 135, 135, 135, 150, 150, 150, 150, 150]
      [140, 140, 140, 140, 140, 160, 160, 160, 160, 160]
      (by decide) (by norm_num [recentMean5]) (by norm_num [oldMean5])
      (by decide) (by norm_num [recentMean5]) (by norm_num [oldMean5])
  exact ⟨by decide, by norm_num [recentMean5], by norm_num [oldMean5], h.1, h.2⟩

/-- C8: the mem command on a buffer pre-seeded with exactly 5 equal values v
classifies the trend as stable, and current, average, maximum and minimum of
the report all equal v. -/
theorem c8_mem_stable_report (v : ℚ) :
    (memReport v [v, v, v, v]).trend = "➡️ 相对平稳" ∧
    (memReport v [v, v, v, v]).current = v ∧
    (memReport v [v, v, v, v]).avg = v ∧
    (memReport v [v, v, v, v]).maxMem = v ∧
    (memReport v [v, v, v, v]).minMem = v ∧
    (memExecute [v, v, v, v, v] none).success = true ∧
    (memExecute [v, v, v, v, v] none).sent =
      [Sent.text (memMsg 5 (memReport v [v, v, v, v]))] := by
  have hdiff : recentMean5 [v, v, v, v, v] - oldMean5 [v, v, v, v, v] = 0 := by
    simp [recentMean5, oldMean5]
  have htrend : memTrend [v, v, v, v, v] = "➡️ 相对平稳" := by
    rw [memTrend_classify _ (by simp), hdiff]
    norm_num
  refine ⟨htrend, rfl, ?_, ?_, ?_, rfl, rfl⟩
  · show ([v, v, v, v, v] : List ℚ).sum / ((([v, v, v, v, v] : List ℚ).length : ℚ)) = v
    simp only [List.sum_cons, List.sum_nil, List.length_cons, List.length_nil]
    ring
  · show ([v, v, v, v] : List ℚ).foldl max v = v
    simp [List.foldl]
  · show ([v, v, v, v] : List ℚ).foldl min v = v
    simp [List.foldl]

/-- C2: for every duration, the formatted string is the concatenation,
without separators and in the order days > hours > minutes > seconds, of at
most 3 components, namely the most significant non-zero units; zero renders
as "0" + seconds unit; negative input renders the error string "N/A" (the
function is total, so it cannot raise). -/
theorem c2_format_duration_matches_spec (d : Int) :
    formatDuration d = formatDurationSpec d := by
  by_cases hneg : d < 0
  · simp [formatDuration, formatDurationSpec, hneg]
  · by_cases h0 : d = 0
    · subst h0; rfl
    · have hs : 0 < d.toNat := by omega
      simp only [formatDuration, formatDurationSpec, durationUnits, hneg, h0,
        if_false]
      set s := d.toNat with hsdef
      by_cases hdd : 0 < s / 86400 <;>
        by_cases hhh : 0 < s % 86400 / 3600 <;>
          by_cases hmw : 0 < s % 3600 / 60 <;>
            by_cases hss : 0 < s % 60 <;>
              first
              | (exfalso; omega)
              | simp [hdd, hhh, hmw, hss, List.filter_cons, List.take]

/-- C6: disk collection excludes partitions whose filesystem type is empty
or whose mount options contain the cdrom marker; each remaining partition
with a successful usage query contributes mountpoint, percentage and
total/used/free in GB; a per-partition usage failure drops only that
partition (partial results, no exception); the display truncates to the
first 5 entries. -/
theorem c6_disk_collection (parts : List DiskPart)
    (usageOf : String → Option DiskUsage) :
    getDiskInfo parts usageOf =
      (parts.filter (fun p => !skipPart p)).filterMap
        (fun p => (usageOf p.mountpoint).map (fun u =>
          ⟨p.mountpoint, u.percent, u.total / 1024 ^ 3,
           u.used / 1024 ^ 3, u.free / 1024 ^ 3⟩)) ∧
    (drawnDisks (getDiskInfo parts usageOf)).length ≤ 5 := by
  constructor
  · induction parts with
    | nil => rfl
    | cons p rest ih =>
      by_cases hskip : skipPart p
      · simp [getDiskInfo, hskip, List.filter_cons, ih]
      · cases hu : usageOf p.mountpoint with
        | none =>
          simp [getDiskInfo, hskip, hu, List.filter_cons, List.filterMap_cons, ih]
        | some u =>
          simp [getDiskInfo, hskip, hu, List.filter_cons, List.filterMap_cons,
            ih, mkDiskEntry]
  · show (List.take 5 (getDiskInfo parts usageOf)).length ≤ 5
    rw [List.length_take]
    omega

/-- C7: when image generation raises or the generator is unavailable, the
status handler sends the plain-text report built from the same snapshot -
containing the bot identifier, the bot memory usage, the CPU percentage and
the enabled/total plugin counts - and returns a result triple with success
flag true; on a raised exception the failure notice is sent first. -/
theorem c7_status_text_fallback (d : StatusData) (e : String) (g : GenOutcome) :
    (statusExecute d true (GenOutcome.err e)).sent =
      [Sent.text ("❌ 图片生成失败: " ++ e ++ "\n正在发送文字版..."),
       Sent.text (statusText d)] ∧
    (statusExecute d true (GenOutcome.err e)).success = true ∧
    (statusExecute d false g).sent = [Sent.text (statusText d)] ∧
    (statusExecute d false g).success = true ∧
    StrContains (statusText d) d.bot_qq ∧
    StrContains (statusText d) (fmt1 d.bot_memory_mb) ∧
    StrContains (statusText d) (pyFloatStr d.cpu_percent) ∧
    StrContains (statusText d)
      (toString d.enabled_plugin_count ++ "/" ++ toString d.plugin_count) := by
  refine ⟨rfl, rfl, rfl, rfl, ?_, ?_, ?_, ?_⟩
  · refine ⟨"📊 **Bot 状态报告**" ++ "\n------------------" ++ "\n🤖 Bot QQ: ",
      "\n⏱️ 运行时间: " ++ d.bot_uptime ++
      "\n🧠 内存占用: " ++ fmt1 d.bot_memory_mb ++ " MB" ++
      "\n🧵 线程数量: " ++ toString d.bot_threads ++
      "\n------------------" ++
      "\n💻 系统: " ++ d.os_full_version ++
      "\n🐍 Python: " ++ d.python_version ++
      "\n⚙️ CPU: " ++ pyFloatStr d.cpu_percent ++ "%" ++
      "\n💾 RAM: " ++ pyFloatStr d.ram_percent ++ "% (" ++
        fmt1 d.ram_used_gb ++ "/" ++ fmt1 d.ram_total_gb ++ " GB)" ++
      "\n------------------" ++
      "\n📦 插件: " ++ toString d.enabled_plugin_count ++ "/" ++
        toString d.plugin_count ++ " 已启用", ?_⟩
    simp [statusText, String.append_assoc]
  · refine ⟨"📊 **Bot 状态报告**" ++ "\n------------------" ++ "\n🤖 Bot QQ: " ++
      d.bot_qq ++ "\n⏱️ 运行时间: " ++ d.bot_uptime ++ "\n🧠 内存占用: ",
      " MB" ++
      "\n🧵 线程数量: " ++ toString d.bot_threads ++
      "\n------------------" ++
      "\n💻 系统: " ++ d.os_full_version ++
      "\n🐍 Python: " ++ d.python_version ++
      "\n⚙️ CPU: " ++ pyFloatStr d.cpu_percent ++ "%" ++
      "\n💾 RAM: " ++ pyFloatStr d.ram_percent ++ "% (" ++
        fmt1 d.ram_used_gb ++ "/" ++ fmt1 d.ram_total_gb ++ " GB)" ++
      "\n------------------" ++
      "\n📦 插件: " ++ toString d.enabled_plugin_count ++ "/" ++
        toString d.plugin_count ++ " 已启用", ?_⟩
    simp [statusText, String.append_assoc]
  · refine ⟨"📊 **Bot 状态报告**" ++ "\n------------------" ++ "\n🤖 Bot QQ: " ++
      d.bot_qq ++ "\n⏱️ 运行时间: " ++ d.bot_uptime ++
      "\n🧠 内存占用: " ++ fmt1 d.bot_memory_mb ++ " MB" ++
      "\n🧵 线程数量: " ++ toString d.bot_threads ++
      "\n------------------" ++
      "\n💻 系统: " ++ d.os_full_version ++
      "\n🐍 Python: " ++ d.python_version ++
      "\n⚙️ CPU: ",
      "%" ++
      "\n💾 RAM: " ++ pyFloatStr d.ram_percent ++ "% (" ++
        fmt1 d.ram_used_gb ++ "/" ++ fmt1 d.ram_total_gb ++ " GB)" ++
      "\n------------------" ++
      "\n📦 插件: " ++ toString d.enabled_plugin_count ++ "/" ++
        toString d.plugin_count ++ " 已启用", ?_⟩
    simp [statusText, String.append_assoc]
  · refine ⟨"📊 **Bot 状态报告**" ++ "\n------------------" ++ "\n🤖 Bot QQ: " ++
      d.bot_qq ++ "\n⏱️ 运行时间: " ++ d.bot_uptime ++
      "\n🧠 内存占用: " ++ fmt1 d.bot_memory_mb ++ " MB" ++
      "\n🧵 线程数量: " ++ toString d.bot_threads ++
      "\n------------------" ++
      "\n💻 系统: " ++ d.os_full_version ++
      "\n🐍 Python: " ++ d.python_version ++
      "\n⚙️ CPU: " ++ pyFloatStr d.cpu_percent ++ "%" ++
      "\n💾 RAM: " ++ pyFloatStr d.ram_percent ++ "% (" ++
        fmt1 d.ram_used_gb ++ "/" ++ fmt1 d.ram_total_gb ++ " GB)" ++
      "\n------------------" ++
      "\n📦 插件: ",
      " 已启用", ?_⟩
    simp [statusText, String.append_assoc]

end MonitorStatus
